import Mathlib

/-!
Shallow embedding of the carpool application's core logic.

Sources embedded here:
* `src/shadcn-ui/src/lib/costCalculator.ts` (FareEngine: cost splitting,
  distance/time based cost estimation),
* `src/shadcn-ui/src/lib/storage.ts` (rating aggregation over the
  local-storage rating list),
* `src/shadcn-ui/src/pages/SearchRides.tsx` (ride search filtering and the
  join-request flow),
* `src/supabase-functions.sql` (`approve_ride_request` and the
  request/passenger tables it mutates).

JavaScript numbers are modelled as exact rationals (`ℚ`); `Math.round` is
`⌊x + 1/2⌋` (half rounds toward +∞), which is the JS semantics on finite
inputs.
-/

/-- Model of JavaScript `Math.round`: floor of `x + 1/2` (the JS semantics
on finite inputs: halves round toward `+∞`). -/
def jsRound (x : ℚ) : ℤ := ⌊x + 1/2⌋

/-- Model of the source's 2-decimal rounding idiom `Math.round(x * 100) / 100`. -/
def round2 (x : ℚ) : ℚ := (jsRound (x * 100) : ℚ) / 100

/-- Model of the 1-decimal rounding idiom `Math.round(x * 10) / 10`
(used by `ratingsStorage.calculateUserRating`). -/
def round1 (x : ℚ) : ℚ := (jsRound (x * 10) : ℚ) / 10

/-- One entry of `CostBreakdown.passengerShares`
(`{ userId, amount }` in `costCalculator.ts`). -/
structure PassengerShare where
  userId : String
  amount : ℚ
  deriving DecidableEq

/-- `CostBreakdown` from `src/shadcn-ui/src/types/index.ts`. -/
structure CostBreakdown where
  totalCost : ℚ
  costPerSeat : ℚ
  numberOfPassengers : ℕ
  driverShare : ℚ
  passengerShares : List PassengerShare
  deriving DecidableEq

/-- `CostCalculationParams` from `costCalculator.ts`. -/
structure CostCalculationParams where
  totalCost : ℚ
  driverId : String
  passengerIds : List String
  includeDriverInSplit : Bool := false
  deriving DecidableEq

/-- `calculateRideCost` from `src/shadcn-ui/src/lib/costCalculator.ts`
(lines 11-52): splits `totalCost` among the passengers, optionally
including the driver, rounding each monetary output to 2 decimals
(the empty-passenger early return performs no rounding). -/
def calculateRideCost (params : CostCalculationParams) : CostBreakdown :=
  let totalCost := params.totalCost
  let passengerIds := params.passengerIds
  let numberOfPassengers := passengerIds.length
  if numberOfPassengers = 0 then
    { totalCost := totalCost
      costPerSeat := totalCost
      numberOfPassengers := 0
      driverShare := totalCost
      passengerShares := [] }
  else
    let costPerSeat : ℚ :=
      if params.includeDriverInSplit then
        totalCost / (numberOfPassengers + 1)
      else
        totalCost / numberOfPassengers
    let driverShare : ℚ := if params.includeDriverInSplit then costPerSeat else 0
    let passengerShares := passengerIds.map (fun userId =>
      PassengerShare.mk userId (round2 costPerSeat))
    { totalCost := totalCost
      costPerSeat := round2 costPerSeat
      numberOfPassengers := numberOfPassengers
      driverShare := round2 driverShare
      passengerShares := passengerShares }

/-- `calculateDistanceBasedCost` from `costCalculator.ts` (lines 54-63):
`round2((distanceKm / fuelEfficiencyKmPerLiter) * fuelPricePerLiter
+ distanceKm * additionalCostsPerKm)`.  The source performs no input
validation whatsoever. -/
def calculateDistanceBasedCost (distanceKm : ℚ)
    (fuelEfficiencyKmPerLiter : ℚ := 12)
    (fuelPricePerLiter : ℚ := 3/2)
    (additionalCostsPerKm : ℚ := 1/10) : ℚ :=
  let fuelCost := (distanceKm / fuelEfficiencyKmPerLiter) * fuelPricePerLiter
  let additionalCosts := distanceKm * additionalCostsPerKm
  round2 (fuelCost + additionalCosts)

/-- Modelled from the spec (§4.1, §7): the spec's `distanceBasedCost`
contract demands that a negative `distanceKm` fail fast with
`InvalidArgument` instead of producing a number.  The source function
`calculateDistanceBasedCost` has no such check; this definition exists
only to be compared against it. -/
def specDistanceBasedCost (distanceKm : ℚ)
    (fuelEfficiencyKmPerLiter : ℚ := 12)
    (fuelPricePerLiter : ℚ := 3/2)
    (additionalCostsPerKm : ℚ := 1/10) : Except String ℚ :=
  if distanceKm < 0 then
    .error "InvalidArgument"
  else
    .ok (calculateDistanceBasedCost distanceKm fuelEfficiencyKmPerLiter
      fuelPricePerLiter additionalCostsPerKm)

/-- `RatingType` (`'driver' | 'passenger'`). -/
inductive RatingType where
  | driver
  | passenger
  deriving DecidableEq

/-- `Rating` from `src/shadcn-ui/src/types/index.ts` (the fields the rating
aggregation reads). -/
structure Rating where
  id : String
  raterId : String
  ratedUserId : String
  rideId : String
  score : ℤ
  type : RatingType
  deriving DecidableEq

/-- `ratingsStorage.getUserRatings` from `storage.ts`: the ratings whose
`ratedUserId` is the given user. -/
def getUserRatings (ratings : List Rating) (userId : String) : List Rating :=
  ratings.filter (fun r => r.ratedUserId == userId)

/-- `ratingsStorage.calculateUserRating` from `storage.ts` (lines 346-355):
`0` when the user has no ratings, otherwise
`Math.round((totalScore / userRatings.length) * 10) / 10` — note the
rounding is to ONE decimal place. -/
def calculateUserRating (ratings : List Rating) (userId : String) : ℚ :=
  let userRatings := getUserRatings ratings userId
  if userRatings.length = 0 then 0
  else
    let totalScore : ℤ := (userRatings.map Rating.score).sum
    (jsRound (((totalScore : ℚ) / userRatings.length) * 10) : ℚ) / 10

/-- `ratingsStorage.addRating` from `storage.ts`: push onto the stored list. -/
def addRating (ratings : List Rating) (rating : Rating) : List Rating :=
  ratings ++ [rating]

/-- Modelled from the spec (§3, §4.2 `RecordRating`): the spec's aggregate
rating, "mean of all their Ratings, 2-decimal rounding" and "0 if none".
This follows the spec's words; it exists only to be compared against the
source's `calculateUserRating`. -/
def specUserRating (ratings : List Rating) (userId : String) : ℚ :=
  let userRatings := getUserRatings ratings userId
  if userRatings.length = 0 then 0
  else round2 (((userRatings.map Rating.score).sum : ℚ) / userRatings.length)

/-- Ride lifecycle status (`'active' | 'completed' | 'cancelled'`). -/
inductive RideStatus where
  | active
  | completed
  | cancelled
  deriving DecidableEq

/-- Ride kind (`'offer' | 'request'`). -/
inductive RideType where
  | offer
  | request
  deriving DecidableEq

/-- Gender preference (`'male' | 'female' | 'any'`). -/
inductive GenderPreference where
  | male
  | female
  | any
  deriving DecidableEq

/-- The part of `Location` the search logic reads (lat/lng unused there). -/
structure Location where
  address : String
  city : String
  state : String
  deriving DecidableEq

/-- `RidePreferences` from `types/index.ts`. -/
structure RidePreferences where
  smokingAllowed : Bool
  petsAllowed : Bool
  musicAllowed : Bool
  genderPreference : GenderPreference
  deriving DecidableEq

/-- A JS `Date` as far as the search logic observes it: the code only ever
compares `toDateString()` values (calendar-day equality), so the model
carries that string directly. -/
structure DateValue where
  toDateString : String
  deriving DecidableEq

/-- `Ride` from `src/shadcn-ui/src/types/index.ts` (fields read by the
embedded logic; `driver`, timestamps and coordinates are never read by it).
`availableSeats` is the stored seat-count field set at creation; the
current passengers live in the separate `passengers` array. -/
structure Ride where
  id : String
  driverId : String
  type : RideType
  fromLocation : Location
  toLocation : Location
  departureTime : DateValue
  availableSeats : ℤ
  costPerSeat : ℚ
  description : String
  status : RideStatus
  preferences : RidePreferences
  passengers : List String
  deriving DecidableEq

/-- `SearchCriteria` from `types/index.ts`: all fields optional. -/
structure SearchCriteria where
  fromCity : Option String := none
  toCity : Option String := none
  departureDate : Option DateValue := none
  maxCostPerSeat : Option ℚ := none
  availableSeats : Option ℤ := none
  genderPreference : Option GenderPreference := none
  deriving DecidableEq

/-- Does the character list start with the given pattern? (helper for the
JS `String.prototype.includes` model). -/
def charsStartWith : List Char → List Char → Bool
  | _, [] => true
  | [], _ :: _ => false
  | c :: cs, p :: ps => c == p && charsStartWith cs ps

/-- Substring test on character lists. -/
def charsInclude : List Char → List Char → Bool
  | [], pat => pat.isEmpty
  | c :: cs, pat => charsStartWith (c :: cs) pat || charsInclude cs pat

/-- Model of JS `String.prototype.includes` (substring containment). -/
def strIncludes (hay pat : String) : Bool :=
  charsInclude hay.data pat.data

/-- Model of JS `toLowerCase` (the city/address strings are ASCII). -/
def strToLower (s : String) : String :=
  String.mk (s.data.map Char.toLower)

/-- The `// Filter by from city` statement of `handleSearch`
(SearchRides.tsx lines 47-53). -/
def filterByFromCity (criteria : SearchCriteria) (filtered : List Ride) : List Ride :=
  match criteria.fromCity with
  | some s =>
      if s == "" then filtered
      else filtered.filter (fun ride =>
        strIncludes (strToLower ride.fromLocation.city) (strToLower s) ||
        strIncludes (strToLower ride.fromLocation.address) (strToLower s))
  | none => filtered

/-- The `// Filter by to city` statement of `handleSearch`
(SearchRides.tsx lines 55-61). -/
def filterByToCity (criteria : SearchCriteria) (filtered : List Ride) : List Ride :=
  match criteria.toCity with
  | some s =>
      if s == "" then filtered
      else filtered.filter (fun ride =>
        strIncludes (strToLower ride.toLocation.city) (strToLower s) ||
        strIncludes (strToLower ride.toLocation.address) (strToLower s))
  | none => filtered

/-- The `// Filter by departure date` statement of `handleSearch`
(SearchRides.tsx lines 63-69): `toDateString()` equality. -/
def filterByDepartureDate (criteria : SearchCriteria) (filtered : List Ride) : List Ride :=
  match criteria.departureDate with
  | some d => filtered.filter (fun ride =>
      ride.departureTime.toDateString == d.toDateString)
  | none => filtered

/-- The `// Filter by max cost` statement of `handleSearch`
(SearchRides.tsx lines 71-76). -/
def filterByMaxCost (criteria : SearchCriteria) (filtered : List Ride) : List Ride :=
  match criteria.maxCostPerSeat with
  | some m =>
      if m == 0 then filtered
      else filtered.filter (fun ride => decide (ride.costPerSeat ≤ m))
  | none => filtered

/-- The `// Filter by available seats` statement of `handleSearch`
(SearchRides.tsx lines 78-83): it compares the ride's stored
`availableSeats` field with the criterion. -/
def filterByAvailableSeats (criteria : SearchCriteria) (filtered : List Ride) : List Ride :=
  match criteria.availableSeats with
  | some n =>
      if n == 0 then filtered
      else filtered.filter (fun ride => decide (ride.availableSeats ≥ n))
  | none => filtered

/-- The `// Filter by gender preference` statement of `handleSearch`
(SearchRides.tsx lines 85-91). -/
def filterByGenderPreference (criteria : SearchCriteria) (filtered : List Ride) : List Ride :=
  match criteria.genderPreference with
  | some g => filtered.filter (fun ride =>
      ride.preferences.genderPreference == GenderPreference.any ||
      ride.preferences.genderPreference == g)
  | none => filtered

/-- `handleSearch` from `src/shadcn-ui/src/pages/SearchRides.tsx`
(lines 44-94): one filter pass per present criterion, in source order
(the source sequentially reassigns `filtered`; each reassignment is one
of the stage functions above).  JS truthiness guards are kept: an empty
string, a `0` cost and a `0` seat count are falsy and skip their pass. -/
def handleSearch (criteria : SearchCriteria) (rides : List Ride) : List Ride :=
  filterByGenderPreference criteria
    (filterByAvailableSeats criteria
      (filterByMaxCost criteria
        (filterByDepartureDate criteria
          (filterByToCity criteria
            (filterByFromCity criteria rides)))))

/-- The predicate the from-city filter pass of `handleSearch` applies
(trivially true when the criterion is absent or the empty string). -/
def fromCityOk (c : SearchCriteria) (r : Ride) : Bool :=
  match c.fromCity with
  | some s =>
      if s == "" then true
      else strIncludes (strToLower r.fromLocation.city) (strToLower s) ||
        strIncludes (strToLower r.fromLocation.address) (strToLower s)
  | none => true

/-- The predicate of the to-city filter pass of `handleSearch`. -/
def toCityOk (c : SearchCriteria) (r : Ride) : Bool :=
  match c.toCity with
  | some s =>
      if s == "" then true
      else strIncludes (strToLower r.toLocation.city) (strToLower s) ||
        strIncludes (strToLower r.toLocation.address) (strToLower s)
  | none => true

/-- The predicate of the departure-date filter pass of `handleSearch`. -/
def dateOk (c : SearchCriteria) (r : Ride) : Bool :=
  match c.departureDate with
  | some d => r.departureTime.toDateString == d.toDateString
  | none => true

/-- The predicate of the max-cost filter pass of `handleSearch`. -/
def maxCostOk (c : SearchCriteria) (r : Ride) : Bool :=
  match c.maxCostPerSeat with
  | some m => if m == 0 then true else decide (r.costPerSeat ≤ m)
  | none => true

/-- The predicate of the available-seats filter pass of `handleSearch`:
note it reads the ride's stored `availableSeats` field. -/
def seatsCriterionOk (c : SearchCriteria) (r : Ride) : Bool :=
  match c.availableSeats with
  | some n => if n == 0 then true else decide (r.availableSeats ≥ n)
  | none => true

/-- The predicate of the gender-preference filter pass of `handleSearch`. -/
def genderOk (c : SearchCriteria) (r : Ride) : Bool :=
  match c.genderPreference with
  | some g => r.preferences.genderPreference == GenderPreference.any ||
      r.preferences.genderPreference == g
  | none => true

/-- Modelled from the spec (§4.2 Search, glossary): "available seats" =
seat capacity minus current passenger count.  The spec's `availableSeats`
criterion is stated against this quantity; the source compares the stored
`availableSeats` field instead.  This definition exists only to be
compared against the source's behavior. -/
def specRemainingSeats (ride : Ride) : ℤ :=
  ride.availableSeats - ride.passengers.length

/-- `User` from `types/index.ts` (fields read by the embedded logic). -/
structure User where
  id : String
  firstName : String
  lastName : String
  deriving DecidableEq

/-- The candidate-ride pre-filter in the `SearchRides` `useEffect`
(SearchRides.tsx lines 30-42): active rides of kind `offer`, excluding the
searcher's own rides and rides already joined.  A `null` current user
(falsy in the JS conjunction) excludes everything. -/
def loadActiveRides (currentUser : Option User) (allRides : List Ride) : List Ride :=
  allRides.filter (fun ride =>
    ride.status == RideStatus.active &&
    ride.type == RideType.offer &&
    (match currentUser with
     | some u => ride.driverId != u.id && !(ride.passengers.contains u.id)
     | none => false))

/-- The full search pipeline of the `SearchRides` page: the pre-filtered
candidates, then `handleSearch` with the user's criteria. -/
def searchRidesPage (currentUser : Option User) (allRides : List Ride)
    (criteria : SearchCriteria) : List Ride :=
  handleSearch criteria (loadActiveRides currentUser allRides)

/-- `RequestStatus` (`'pending' | 'approved' | 'rejected'`). -/
inductive RequestStatus where
  | pending
  | approved
  | rejected
  deriving DecidableEq

/-- `RideRequest` from `types/index.ts` (fields read by the embedded
logic; the embedded `passenger`/`ride` objects and timestamps are not). -/
structure RideRequest where
  id : String
  passengerId : String
  rideId : String
  status : RequestStatus
  message : String
  requestedSeats : ℤ
  deriving DecidableEq

/-- Notification kinds from the schema's `notification_type` enum. -/
inductive NotificationType where
  | ride_request
  | ride_approved
  | ride_cancelled
  | message
  | rating
  deriving DecidableEq

/-- `Notification` from `types/index.ts` (opaque `data` payload omitted:
the core never reads it). -/
structure Notification where
  id : String
  userId : String
  type : NotificationType
  title : String
  message : String
  isRead : Bool
  deriving DecidableEq

/-- `rideRequestsStorage.getUserRequests` from `storage.ts`. -/
def getUserRequests (requests : List RideRequest) (userId : String) : List RideRequest :=
  requests.filter (fun r => r.passengerId == userId)

/-- `rideRequestsStorage.addRequest` from `storage.ts`: push at the end. -/
def addRequest (requests : List RideRequest) (request : RideRequest) : List RideRequest :=
  requests ++ [request]

/-- `notificationsStorage.addNotification` from `storage.ts`: `unshift`,
i.e. prepend. -/
def addNotification (notifications : List Notification) (notification : Notification) :
    List Notification :=
  notification :: notifications

/-- The four user-visible outcomes of `handleJoinRide` (each sets a
distinct message string in the page state). -/
inductive JoinOutcome where
  | rideNotFound
  | noSeatsAvailable
  | alreadyRequested
  | requestSent
  deriving DecidableEq

/-- `handleJoinRide` from `SearchRides.tsx` (lines 100-163): find the ride,
check seats, reject a duplicate pending request by the same user, otherwise
store a new pending request (1 seat) and notify the driver.  The generated
ids and the clock are passed in explicitly. -/
def handleJoinRide (user : User) (rides : List Ride) (requests : List RideRequest)
    (notifications : List Notification) (rideId : String)
    (newRequestId newNotificationId : String) :
    JoinOutcome × List RideRequest × List Notification :=
  match rides.find? (fun r => r.id == rideId) with
  | none => (.rideNotFound, requests, notifications)
  | some ride =>
    if ride.availableSeats ≤ 0 then (.noSeatsAvailable, requests, notifications)
    else
      let existingRequests := getUserRequests requests user.id
      let hasRequested := existingRequests.any (fun req =>
        req.rideId == rideId && req.status == RequestStatus.pending)
      if hasRequested then (.alreadyRequested, requests, notifications)
      else
        let request : RideRequest :=
          { id := newRequestId
            passengerId := user.id
            rideId := rideId
            status := RequestStatus.pending
            message := user.firstName ++ " " ++ user.lastName ++ " would like to join your ride"
            requestedSeats := 1 }
        let notification : Notification :=
          { id := newNotificationId
            userId := ride.driverId
            type := NotificationType.ride_request
            title := "New Ride Request"
            message := user.firstName ++ " " ++ user.lastName ++ " wants to join your ride"
            isRead := false }
        (.requestSent, addRequest requests request,
          addNotification notifications notification)

namespace Sql

/-- A row of the `rides` table (columns read by `approve_ride_request`).
The `available_seats` column is the seat capacity declared at creation;
`approve_ride_request` never updates it. -/
structure RideRow where
  id : String
  driverId : String
  availableSeats : ℤ
  deriving DecidableEq

/-- A row of the `ride_passengers` junction table. -/
structure RidePassengerRow where
  rideId : String
  passengerId : String
  deriving DecidableEq

/-- A row of the `ride_requests` table (columns read by
`approve_ride_request`; the schema CHECK constraint demands
`requested_seats > 0`). -/
structure RideRequestRow where
  id : String
  passengerId : String
  rideId : String
  status : RequestStatus
  requestedSeats : ℤ
  deriving DecidableEq

/-- A row of the `notifications` table (columns written by
`create_notification`; the JSONB payload is opaque to the logic). -/
structure NotificationRow where
  userId : String
  type : NotificationType
  title : String
  message : String
  deriving DecidableEq

/-- The database state touched by `approve_ride_request`. -/
structure Db where
  rides : List RideRow
  ridePassengers : List RidePassengerRow
  rideRequests : List RideRequestRow
  notifications : List NotificationRow
  deriving DecidableEq

/-- `COUNT(rp.passenger_id)` over `ride_passengers` for one ride. -/
def currentPassengers (db : Db) (rideId : String) : ℕ :=
  (db.ridePassengers.filter (fun rp => rp.rideId == rideId)).length

/-- `create_notification` from `supabase-functions.sql` (lines 180-197):
insert one row into `notifications`. -/
def create_notification (db : Db) (userId : String) (t : NotificationType)
    (title msg : String) : Db :=
  { db with notifications := db.notifications ++ [⟨userId, t, title, msg⟩] }

/-- `approve_ride_request` from `supabase-functions.sql` (lines 200-245):
select the pending request joined with its ride (else return `FALSE`),
recompute `available_seats − COUNT(passengers)` and return `FALSE` when it
is below `requested_seats`; otherwise flip the request to `approved`,
insert the passenger row and notify the passenger, returning `TRUE`. -/
def approve_ride_request (db : Db) (requestId : String) : Db × Bool :=
  match db.rideRequests.find? (fun rr =>
      rr.id == requestId && rr.status == RequestStatus.pending) with
  | none => (db, false)
  | some rr =>
    match db.rides.find? (fun r => r.id == rr.rideId) with
    | none => (db, false)
    | some r =>
      let availableSeatsCount : ℤ := r.availableSeats - currentPassengers db rr.rideId
      if availableSeatsCount < rr.requestedSeats then (db, false)
      else
        let db1 : Db := { db with
          rideRequests := db.rideRequests.map (fun q =>
            if q.id == requestId then { q with status := RequestStatus.approved } else q) }
        let db2 : Db := { db1 with
          ridePassengers := db1.ridePassengers ++ [⟨rr.rideId, rr.passengerId⟩] }
        let db3 : Db := create_notification db2 rr.passengerId
          NotificationType.ride_approved "Ride Request Approved!"
          "Your request to join the ride has been approved."
        (db3, true)

/-- A sequence of `approve_ride_request` calls, keeping the evolving state. -/
def approveMany (db : Db) (requestIds : List String) : Db :=
  requestIds.foldl (fun s i => (approve_ride_request s i).1) db

/-- Capacity invariant of the spec: every ride's passenger count is at most
its seat capacity. -/
def capacityInv (db : Db) : Prop :=
  ∀ r ∈ db.rides, (currentPassengers db r.id : ℤ) ≤ r.availableSeats

instance : DecidablePred capacityInv := fun db =>
  List.decidableBAll _ db.rides

/-- The schema CHECK constraint `requested_seats > 0` as a state predicate. -/
def seatsPositive (db : Db) : Prop :=
  ∀ q ∈ db.rideRequests, 1 ≤ q.requestedSeats

instance : DecidablePred seatsPositive := fun db =>
  List.decidableBAll _ db.rideRequests

end Sql

/-! ### Concrete sample data (used by counterexamples and witnesses) -/

/-- Three ratings of user `"u"` with scores 4, 4, 5 (mean 13/3). -/
def threeRatings : List Rating :=
  [⟨"rt1", "a", "u", "ride1", 4, RatingType.driver⟩,
   ⟨"rt2", "b", "u", "ride1", 4, RatingType.driver⟩,
   ⟨"rt3", "c", "u", "ride1", 5, RatingType.passenger⟩]

/-- An active offer ride with a stored seat count of 2 and two passengers
already aboard (so zero seats actually remain). -/
def fullOfferRide : Ride :=
  { id := "ride1"
    driverId := "d1"
    type := RideType.offer
    fromLocation := ⟨"Campus Gate", "Austin", "TX"⟩
    toLocation := ⟨"Main Street", "Dallas", "TX"⟩
    departureTime := ⟨"Mon Oct 13 2025"⟩
    availableSeats := 2
    costPerSeat := 15
    description := ""
    status := RideStatus.active
    preferences := ⟨false, false, true, GenderPreference.any⟩
    passengers := ["p1", "p2"] }

/-- Search criteria asking for at least one available seat. -/
def oneSeatCriteria : SearchCriteria := { availableSeats := some 1 }

/-- Search criteria with every field absent. -/
def emptyCriteria : SearchCriteria := {}

/-- A user who is neither the driver nor a passenger of `fullOfferRide`. -/
def searchingUser : User := ⟨"u1", "Alice", "Smith"⟩

/-- An active offer ride with free seats, used by the join-flow witness. -/
def openRide : Ride :=
  { fullOfferRide with id := "ride2", driverId := "d2", passengers := [] }

/-- A pending join request by `searchingUser` for `openRide`. -/
def pendingJoinRequest : RideRequest :=
  ⟨"req1", "u1", "ride2", RequestStatus.pending, "hi", 1⟩

/-- A database whose one ride has capacity 1 with one passenger aboard and
one pending request: approval must fail on capacity. -/
def fullDb : Sql.Db :=
  ⟨[⟨"r1", "d1", 1⟩], [⟨"r1", "p0"⟩],
   [⟨"q1", "p1", "r1", RequestStatus.pending, 1⟩], []⟩

/-- A database whose one request was already rejected. -/
def rejectedDb : Sql.Db :=
  ⟨[⟨"r1", "d1", 2⟩], [], [⟨"q1", "p1", "r1", RequestStatus.rejected, 1⟩], []⟩

/-- A database with one approvable pending request. -/
def approvableDb : Sql.Db :=
  ⟨[⟨"r2", "d2", 2⟩], [], [⟨"q2", "p2", "r2", RequestStatus.pending, 1⟩], []⟩

/-- The state `approve_ride_request approvableDb "q2"` produces. -/
def approvedDb : Sql.Db :=
  ⟨[⟨"r2", "d2", 2⟩], [⟨"r2", "p2"⟩],
   [⟨"q2", "p2", "r2", RequestStatus.approved, 1⟩],
   [⟨"p2", NotificationType.ride_approved, "Ride Request Approved!",
     "Your request to join the ride has been approved."⟩]⟩

/-! ### Helper lemmas -/

/-- `jsRound` never moves a value by more than `1/2`. -/
theorem abs_jsRound_sub_le (x : ℚ) : |(jsRound x : ℚ) - x| ≤ 1/2 := by
  rw [jsRound, abs_le]
  constructor
  · have h := Int.lt_floor_add_one (x + 1/2)
    linarith
  · have h := Int.floor_le (x + 1/2)
    linarith

/-- 2-decimal rounding moves a value by at most `1/100`. -/
theorem abs_round2_sub_le (x : ℚ) : |round2 x - x| ≤ 1/100 := by
  have h := abs_jsRound_sub_le (x * 100)
  rw [round2]
  have hx : (jsRound (x * 100) : ℚ) / 100 - x = ((jsRound (x * 100) : ℚ) - x * 100) / 100 := by
    ring
  rw [hx, abs_div]
  rw [show |(100 : ℚ)| = 100 by norm_num]
  linarith [(div_le_div_iff_of_pos_right (show (0:ℚ) < 100 by norm_num)).mpr h]

/-- `jsRound` is monotone. -/
theorem jsRound_mono {a b : ℚ} (h : a ≤ b) : jsRound a ≤ jsRound b :=
  Int.floor_le_floor (by linarith)

/-- 2-decimal rounding is monotone. -/
theorem round2_mono {a b : ℚ} (h : a ≤ b) : round2 a ≤ round2 b := by
  rw [round2, round2]
  have := jsRound_mono (mul_le_mul_of_nonneg_right h (show (0:ℚ) ≤ 100 by norm_num))
  have hcast : (jsRound (a * 100) : ℚ) ≤ (jsRound (b * 100) : ℚ) := by exact_mod_cast this
  linarith

/-- Rounding zero gives zero. -/
theorem round2_zero : round2 0 = 0 := by
  norm_num [round2, jsRound, Int.floor_eq_iff]

/-- Membership in the from-city pass. -/
theorem mem_filterByFromCity (c : SearchCriteria) (l : List Ride) (r : Ride) :
    r ∈ filterByFromCity c l ↔ r ∈ l ∧ fromCityOk c r = true := by
  unfold filterByFromCity fromCityOk
  cases hfc : c.fromCity with
  | none => simp
  | some s =>
    dsimp only
    split_ifs with h
    · simp
    · simp [List.mem_filter]

/-- Membership in the to-city pass. -/
theorem mem_filterByToCity (c : SearchCriteria) (l : List Ride) (r : Ride) :
    r ∈ filterByToCity c l ↔ r ∈ l ∧ toCityOk c r = true := by
  unfold filterByToCity toCityOk
  cases htc : c.toCity with
  | none => simp
  | some s =>
    dsimp only
    split_ifs with h
    · simp
    · simp [List.mem_filter]

/-- Membership in the departure-date pass. -/
theorem mem_filterByDepartureDate (c : SearchCriteria) (l : List Ride) (r : Ride) :
    r ∈ filterByDepartureDate c l ↔ r ∈ l ∧ dateOk c r = true := by
  unfold filterByDepartureDate dateOk
  cases hdd : c.departureDate with
  | none => simp
  | some d => simp [List.mem_filter]

/-- Membership in the max-cost pass. -/
theorem mem_filterByMaxCost (c : SearchCriteria) (l : List Ride) (r : Ride) :
    r ∈ filterByMaxCost c l ↔ r ∈ l ∧ maxCostOk c r = true := by
  unfold filterByMaxCost maxCostOk
  cases hmc : c.maxCostPerSeat with
  | none => simp
  | some m =>
    dsimp only
    split_ifs with h
    · simp
    · simp [List.mem_filter]

/-- Membership in the available-seats pass. -/
theorem mem_filterByAvailableSeats (c : SearchCriteria) (l : List Ride) (r : Ride) :
    r ∈ filterByAvailableSeats c l ↔ r ∈ l ∧ seatsCriterionOk c r = true := by
  unfold filterByAvailableSeats seatsCriterionOk
  cases hav : c.availableSeats with
  | none => simp
  | some n =>
    dsimp only
    split_ifs with h
    · simp
    · simp [List.mem_filter]

/-- Membership in the gender-preference pass. -/
theorem mem_filterByGenderPreference (c : SearchCriteria) (l : List Ride) (r : Ride) :
    r ∈ filterByGenderPreference c l ↔ r ∈ l ∧ genderOk c r = true := by
  unfold filterByGenderPreference genderOk
  cases hgp : c.genderPreference with
  | none => simp
  | some g => simp [List.mem_filter]

/-- Membership characterization of `handleSearch`: the output keeps exactly
the input rides passing every (present and truthy) criterion. -/
theorem mem_handleSearch (c : SearchCriteria) (rides : List Ride) (r : Ride) :
    r ∈ handleSearch c rides ↔
      r ∈ rides ∧ fromCityOk c r = true ∧ toCityOk c r = true ∧ dateOk c r = true ∧
        maxCostOk c r = true ∧ seatsCriterionOk c r = true ∧ genderOk c r = true := by
  simp only [handleSearch, mem_filterByGenderPreference, mem_filterByAvailableSeats,
    mem_filterByMaxCost, mem_filterByDepartureDate, mem_filterByToCity,
    mem_filterByFromCity, and_assoc]

/-! ### Claim theorems -/

/-- C6: for every `totalCost`, `calculateRideCost` on an empty passenger
list returns `costPerSeat = totalCost`, `driverShare = totalCost` and an
empty share list; in particular `splitCost([], 100)` returns
`{costPerSeat: 100, driverShare: 100, passengerShares: []}`. -/
theorem calculateRideCost_empty_passengers (totalCost : ℚ) (driverId : String) (b : Bool) :
    (calculateRideCost ⟨totalCost, driverId, [], b⟩).costPerSeat = totalCost ∧
    (calculateRideCost ⟨totalCost, driverId, [], b⟩).driverShare = totalCost ∧
    (calculateRideCost ⟨totalCost, driverId, [], b⟩).passengerShares = [] ∧
    calculateRideCost ⟨100, "driver", [], false⟩ = ⟨100, 100, 0, 100, []⟩ :=
  ⟨rfl, rfl, rfl, rfl⟩

/-- C4 (counterexample): at `distanceKm = -12` the spec's contract demands
an `InvalidArgument` failure, but the source `calculateDistanceBasedCost`
returns the computed number `-2.7`. -/
theorem calculateDistanceBasedCost_accepts_negative :
    specDistanceBasedCost (-12) 12 (3/2) (1/10) = Except.error "InvalidArgument" ∧
    calculateDistanceBasedCost (-12) 12 (3/2) (1/10) = -27/10 := by
  constructor
  · simp only [specDistanceBasedCost, if_pos (show (-12 : ℚ) < 0 by norm_num)]
  · norm_num [calculateDistanceBasedCost, round2, jsRound, Int.floor_eq_iff]

/-- C4 (amended): `calculateDistanceBasedCost` performs no input
validation: for a negative `distanceKm` (at the default parameters) it
just returns the rounded formula value `round2(9·d/40)`, which is a
non-positive number rather than an error. -/
theorem calculateDistanceBasedCost_no_negative_check (d : ℚ) (hd : d < 0) :
    calculateDistanceBasedCost d 12 (3/2) (1/10) = round2 (9 * d / 40) ∧
    calculateDistanceBasedCost d 12 (3/2) (1/10) ≤ 0 := by
  have harg : (d / 12) * (3/2) + d * (1/10) = 9 * d / 40 := by ring
  have heq : calculateDistanceBasedCost d 12 (3/2) (1/10) = round2 (9 * d / 40) := by
    unfold calculateDistanceBasedCost
    rw [← harg]
  refine ⟨heq, ?_⟩
  rw [heq, round2]
  have hfl : jsRound (9 * d / 40 * 100) ≤ 0 := by
    rw [jsRound]
    have h1 : (⌊(9 * d / 40 * 100 + 1/2 : ℚ)⌋ : ℤ) ≤ ⌊(1/2 : ℚ)⌋ :=
      Int.floor_le_floor (by linarith)
    have h2 : (⌊(1/2 : ℚ)⌋ : ℤ) = 0 := by norm_num [Int.floor_eq_iff]
    omega
  have hfl' : (jsRound (9 * d / 40 * 100) : ℚ) ≤ 0 := by exact_mod_cast hfl
  linarith

/-- Witness for `calculateDistanceBasedCost_no_negative_check` at
`distanceKm = -12`. -/
theorem calculateDistanceBasedCost_no_negative_check_witness :
    calculateDistanceBasedCost (-12) 12 (3/2) (1/10) = round2 (9 * (-12) / 40) ∧
    calculateDistanceBasedCost (-12) 12 (3/2) (1/10) ≤ 0 :=
  calculateDistanceBasedCost_no_negative_check (-12) (by norm_num)

/-- C9: `calculateDistanceBasedCost 0 e p x = 0` for all parameter values,
and for fixed non-negative parameters (the spec's documented input domain)
the function is monotonically non-decreasing in `distanceKm`. -/
theorem calculateDistanceBasedCost_zero_and_mono (e p x d1 d2 : ℚ)
    (he : 0 ≤ e) (hp : 0 ≤ p) (hx : 0 ≤ x) (hd : d1 ≤ d2) :
    (∀ e2 p2 x2 : ℚ, calculateDistanceBasedCost 0 e2 p2 x2 = 0) ∧
    calculateDistanceBasedCost d1 e p x ≤ calculateDistanceBasedCost d2 e p x := by
  constructor
  · intro e2 p2 x2
    unfold calculateDistanceBasedCost
    simp [round2_zero]
  · unfold calculateDistanceBasedCost
    apply round2_mono
    rcases eq_or_lt_of_le he with he0 | he0
    · rw [← he0]
      simp only [div_zero, zero_mul, zero_add]
      exact mul_le_mul_of_nonneg_right hd hx
    · have h1 : d1 / e ≤ d2 / e := (div_le_div_iff_of_pos_right he0).mpr hd
      have h2 : (d1 / e) * p ≤ (d2 / e) * p := mul_le_mul_of_nonneg_right h1 hp
      have h3 : d1 * x ≤ d2 * x := mul_le_mul_of_nonneg_right hd hx
      linarith

/-- Witness for `calculateDistanceBasedCost_zero_and_mono` at the default
parameters with `d1 = 0 ≤ 5 = d2`. -/
theorem calculateDistanceBasedCost_zero_and_mono_witness :
    (∀ e2 p2 x2 : ℚ, calculateDistanceBasedCost 0 e2 p2 x2 = 0) ∧
    calculateDistanceBasedCost 0 12 (3/2) (1/10) ≤ calculateDistanceBasedCost 5 12 (3/2) (1/10) :=
  calculateDistanceBasedCost_zero_and_mono 12 (3/2) (1/10) 0 5
    (by norm_num) (by norm_num) (by norm_num) (by norm_num)

/-- C5: with a non-negative total and a non-empty passenger list,
excluding the driver gives `driverShare = 0` and the independently rounded
shares sum to the total within `0.01 · n`; including the driver gives a
`driverShare` equal to every passenger's share. -/
theorem calculateRideCost_split_properties (totalCost : ℚ) (driverId : String)
    (ids : List String) (hc : 0 ≤ totalCost) (hne : ids ≠ []) :
    (calculateRideCost ⟨totalCost, driverId, ids, false⟩).driverShare = 0 ∧
    |((calculateRideCost ⟨totalCost, driverId, ids, false⟩).passengerShares.map
        PassengerShare.amount).sum - totalCost| ≤ (1/100) * ids.length ∧
    ∀ s ∈ (calculateRideCost ⟨totalCost, driverId, ids, true⟩).passengerShares,
      (calculateRideCost ⟨totalCost, driverId, ids, true⟩).driverShare = s.amount := by
  have hlen : ids.length ≠ 0 := fun h => hne (by simpa using h)
  have hfalse : calculateRideCost ⟨totalCost, driverId, ids, false⟩ =
      { totalCost := totalCost
        costPerSeat := round2 (totalCost / ids.length)
        numberOfPassengers := ids.length
        driverShare := round2 0
        passengerShares := ids.map (fun userId =>
          PassengerShare.mk userId (round2 (totalCost / ids.length))) } := by
    simp [calculateRideCost, hlen]
  have htrue : calculateRideCost ⟨totalCost, driverId, ids, true⟩ =
      { totalCost := totalCost
        costPerSeat := round2 (totalCost / (ids.length + 1))
        numberOfPassengers := ids.length
        driverShare := round2 (totalCost / (ids.length + 1))
        passengerShares := ids.map (fun userId =>
          PassengerShare.mk userId (round2 (totalCost / (ids.length + 1)))) } := by
    simp [calculateRideCost, hlen]
  refine ⟨?_, ?_, ?_⟩
  · rw [hfalse]
    exact round2_zero
  · rw [hfalse]
    have hmap : ((ids.map (fun userId =>
        PassengerShare.mk userId (round2 (totalCost / ids.length)))).map
          PassengerShare.amount).sum = ids.length * round2 (totalCost / ids.length) := by
      rw [List.map_map]
      rw [show (PassengerShare.amount ∘ fun userId =>
          PassengerShare.mk userId (round2 (totalCost / ids.length))) =
          (fun _ => round2 (totalCost / ids.length)) from rfl]
      rw [List.map_const', List.sum_replicate, nsmul_eq_mul]
    rw [hmap]
    have hnz : ((ids.length : ℚ)) ≠ 0 := by exact_mod_cast hlen
    have hcancel : (ids.length : ℚ) * (totalCost / ids.length) = totalCost := by
      field_simp
    have hdiff : (ids.length : ℚ) * round2 (totalCost / ids.length) - totalCost =
        (ids.length : ℚ) * (round2 (totalCost / ids.length) - totalCost / ids.length) := by
      rw [mul_sub, hcancel]
    rw [hdiff, abs_mul, abs_of_nonneg (show (0:ℚ) ≤ (ids.length : ℚ) by positivity)]
    calc (ids.length : ℚ) * |round2 (totalCost / ids.length) - totalCost / ids.length|
        ≤ (ids.length : ℚ) * (1/100) :=
          mul_le_mul_of_nonneg_left (abs_round2_sub_le _) (by positivity)
      _ = (1/100) * ids.length := by ring
  · rw [htrue]
    intro s hs
    simp only [List.mem_map] at hs
    obtain ⟨uid, _, rfl⟩ := hs
    rfl

/-- Witness for `calculateRideCost_split_properties` at `totalCost = 10`
with three passengers. -/
theorem calculateRideCost_split_properties_witness :
    (calculateRideCost ⟨10, "d", ["a", "b", "c"], false⟩).driverShare = 0 ∧
    |((calculateRideCost ⟨10, "d", ["a", "b", "c"], false⟩).passengerShares.map
        PassengerShare.amount).sum - 10| ≤ (1/100) * (["a", "b", "c"] : List String).length ∧
    ∀ s ∈ (calculateRideCost ⟨10, "d", ["a", "b", "c"], true⟩).passengerShares,
      (calculateRideCost ⟨10, "d", ["a", "b", "c"], true⟩).driverShare = s.amount :=
  calculateRideCost_split_properties 10 "d" ["a", "b", "c"] (by norm_num)
    (List.cons_ne_nil _ _)

/-- C2 (counterexample): for user `"u"` with scores 4, 4, 5 the source
aggregate is `Math.round((13/3)*10)/10 = 4.3`, while the spec's 2-decimal
rounding gives `4.33`; the two disagree. -/
theorem calculateUserRating_one_decimal_cex :
    calculateUserRating threeRatings "u" = 43/10 ∧
    specUserRating threeRatings "u" = 433/100 ∧
    calculateUserRating threeRatings "u" ≠ specUserRating threeRatings "u" := by
  have hg : getUserRatings threeRatings "u" = threeRatings := by decide
  have hl : threeRatings.length = 3 := rfl
  have hs : ((threeRatings.map Rating.score).sum : ℤ) = 13 := rfl
  have h1 : calculateUserRating threeRatings "u" = 43/10 := by
    simp only [calculateUserRating, hg, hl, hs]
    norm_num [jsRound, Int.floor_eq_iff]
  have h2 : specUserRating threeRatings "u" = 433/100 := by
    simp only [specUserRating, hg, hl, hs]
    norm_num [round2, jsRound, Int.floor_eq_iff]
  refine ⟨h1, h2, ?_⟩
  rw [h1, h2]
  norm_num

/-- C2 (amended): after `addRating` inserts a new rating, the rated user's
aggregate equals the mean of all ratings targeting that user rounded to
ONE decimal place (`Math.round(mean*10)/10`), the user's rating count
equals the previous count plus one, and a user with no ratings has
aggregate 0. -/
theorem calculateUserRating_after_addRating (ratings : List Rating) (r : Rating) :
    calculateUserRating (addRating ratings r) r.ratedUserId =
      (jsRound ((((getUserRatings (addRating ratings r) r.ratedUserId).map Rating.score).sum : ℚ)
        / ((getUserRatings (addRating ratings r) r.ratedUserId).length : ℚ) * 10) : ℚ) / 10 ∧
    (getUserRatings (addRating ratings r) r.ratedUserId).length =
      (getUserRatings ratings r.ratedUserId).length + 1 ∧
    ∀ u, getUserRatings ratings u = [] → calculateUserRating ratings u = 0 := by
  have hsplit : getUserRatings (addRating ratings r) r.ratedUserId =
      getUserRatings ratings r.ratedUserId ++ [r] := by
    unfold getUserRatings addRating
    rw [List.filter_append]
    simp
  have hlen : (getUserRatings (addRating ratings r) r.ratedUserId).length =
      (getUserRatings ratings r.ratedUserId).length + 1 := by
    rw [hsplit, List.length_append, List.length_cons, List.length_nil]
  refine ⟨?_, hlen, ?_⟩
  · unfold calculateUserRating
    rw [if_neg (by omega : ¬ (getUserRatings (addRating ratings r) r.ratedUserId).length = 0)]
  · intro u hu
    unfold calculateUserRating
    rw [hu]
    simp

/-- C3 (counterexample): `fullOfferRide` has a stored seat field of 2 but
two passengers aboard, so zero seats remain; it survives the candidate
pre-filter, and a search asking for 1 available seat still keeps it — the
filter reads the stored field, not capacity minus passengers. -/
theorem handleSearch_seats_uses_stored_field_cex :
    loadActiveRides (some searchingUser) [fullOfferRide] = [fullOfferRide] ∧
    handleSearch oneSeatCriteria [fullOfferRide] = [fullOfferRide] ∧
    specRemainingSeats fullOfferRide < 1 := by
  refine ⟨by decide, by decide, by decide⟩

/-- C3 (amended): when the `availableSeats` criterion is present (and
nonzero, per JS truthiness), `handleSearch` keeps exactly the candidates
whose stored `availableSeats` field — not the remaining-seat count — is at
least the criterion. -/
theorem handleSearch_seats_filter (c : SearchCriteria) (rides : List Ride) (r : Ride)
    (n : ℤ) (hav : c.availableSeats = some n) (hn : n ≠ 0) :
    (r ∈ handleSearch c rides ↔
      r ∈ handleSearch { c with availableSeats := none } rides ∧ n ≤ r.availableSeats) := by
  rw [mem_handleSearch, mem_handleSearch]
  have hfc : fromCityOk { c with availableSeats := none } r = fromCityOk c r := rfl
  have htc : toCityOk { c with availableSeats := none } r = toCityOk c r := rfl
  have hdd : dateOk { c with availableSeats := none } r = dateOk c r := rfl
  have hmc : maxCostOk { c with availableSeats := none } r = maxCostOk c r := rfl
  have hgp : genderOk { c with availableSeats := none } r = genderOk c r := rfl
  have hsn : seatsCriterionOk { c with availableSeats := none } r = true := rfl
  have hsc : seatsCriterionOk c r = true ↔ n ≤ r.availableSeats := by
    unfold seatsCriterionOk
    rw [hav]
    dsimp only
    rw [if_neg (by simpa using hn)]
    rw [decide_eq_true_eq]
  rw [hfc, htc, hdd, hmc, hgp, hsn, hsc]
  tauto

/-- Witness for `handleSearch_seats_filter`: `fullOfferRide` against the
one-seat criteria. -/
theorem handleSearch_seats_filter_witness :
    fullOfferRide ∈ handleSearch oneSeatCriteria [fullOfferRide] ↔
      fullOfferRide ∈ handleSearch { oneSeatCriteria with availableSeats := none }
        [fullOfferRide] ∧ 1 ≤ fullOfferRide.availableSeats :=
  handleSearch_seats_filter oneSeatCriteria [fullOfferRide] fullOfferRide 1 rfl
    (by decide)

/-- C10: every ride returned by the search page is of kind `offer`: the
`useEffect` pre-filter drops `request` rides before any criteria apply. -/
theorem searchRidesPage_only_offers (u : Option User) (allRides : List Ride)
    (c : SearchCriteria) (r : Ride) (hr : r ∈ searchRidesPage u allRides c) :
    r.type = RideType.offer := by
  unfold searchRidesPage at hr
  rw [mem_handleSearch] at hr
  have hmem := hr.1
  unfold loadActiveRides at hmem
  rw [List.mem_filter] at hmem
  have hp := hmem.2
  simp only [Bool.and_eq_true, beq_iff_eq] at hp
  exact hp.1.2

/-- Witness for `searchRidesPage_only_offers` on a concrete search whose
result contains `fullOfferRide`. -/
theorem searchRidesPage_only_offers_witness : fullOfferRide.type = RideType.offer :=
  searchRidesPage_only_offers (some searchingUser) [fullOfferRide] emptyCriteria
    fullOfferRide (by decide)

/-- C7: when a pending request by the same user for the same ride already
exists (and the ride is found with seats available, the checks that run
first), a second `handleJoinRide` reports the duplicate and leaves both
the request list and the notification list unchanged. -/
theorem handleJoinRide_duplicate (user : User) (rides : List Ride)
    (requests : List RideRequest) (notifications : List Notification)
    (rideId newRequestId newNotificationId : String) (ride : Ride) (req : RideRequest)
    (hride : rides.find? (fun r => r.id == rideId) = some ride)
    (hseats : 0 < ride.availableSeats)
    (hmem : req ∈ requests) (hpass : req.passengerId = user.id)
    (hreq : req.rideId = rideId) (hpending : req.status = RequestStatus.pending) :
    handleJoinRide user rides requests notifications rideId newRequestId newNotificationId =
      (JoinOutcome.alreadyRequested, requests, notifications) := by
  unfold handleJoinRide
  rw [hride]
  dsimp only
  rw [if_neg (not_le.mpr hseats)]
  have hdup : (getUserRequests requests user.id).any (fun q =>
      q.rideId == rideId && q.status == RequestStatus.pending) = true := by
    rw [List.any_eq_true]
    refine ⟨req, ?_, ?_⟩
    · unfold getUserRequests
      rw [List.mem_filter]
      exact ⟨hmem, by simp [hpass]⟩
    · simp [hreq, hpending]
  simp only [hdup, if_true]

/-- Witness for `handleJoinRide_duplicate`: `searchingUser` already has a
pending request for `openRide`. -/
theorem handleJoinRide_duplicate_witness :
    handleJoinRide searchingUser [openRide] [pendingJoinRequest] [] "ride2" "req2" "n1" =
      (JoinOutcome.alreadyRequested, [pendingJoinRequest], []) :=
  handleJoinRide_duplicate searchingUser [openRide] [pendingJoinRequest] [] "ride2"
    "req2" "n1" openRide pendingJoinRequest (by decide) (by decide) (by decide)
    rfl rfl rfl

/-- `approve_ride_request` never changes the `rides` table. -/
theorem Sql.approve_rides_eq (db : Sql.Db) (reqId : String) :
    ((Sql.approve_ride_request db reqId).1).rides = db.rides := by
  unfold Sql.approve_ride_request
  cases hfind : db.rideRequests.find? (fun rr =>
      rr.id == reqId && rr.status == RequestStatus.pending) with
  | none => rfl
  | some rr =>
    dsimp only
    cases hride : db.rides.find? (fun r => r.id == rr.rideId) with
    | none => rfl
    | some r =>
      dsimp only
      split_ifs with h
      · rfl
      · rfl

/-- `approve_ride_request` preserves the `requested_seats > 0` CHECK
constraint (it only flips request statuses). -/
theorem Sql.approve_seatsPositive (db : Sql.Db) (reqId : String)
    (h : Sql.seatsPositive db) :
    Sql.seatsPositive (Sql.approve_ride_request db reqId).1 := by
  unfold Sql.approve_ride_request
  cases hfind : db.rideRequests.find? (fun rr =>
      rr.id == reqId && rr.status == RequestStatus.pending) with
  | none => exact h
  | some rr =>
    dsimp only
    cases hride : db.rides.find? (fun r => r.id == rr.rideId) with
    | none => exact h
    | some r =>
      dsimp only
      split_ifs with hcap
      · exact h
      · intro q hq
        simp only [Sql.create_notification, List.mem_map] at hq
        obtain ⟨q0, hq0, rfl⟩ := hq
        have hq0' := h q0 hq0
        by_cases hid : (q0.id == reqId) = true
        · simpa [hid] using hq0'
        · simpa [hid] using hq0'

/-- One `approve_ride_request` call preserves the capacity invariant,
given the schema's `requested_seats > 0` constraint and unique ride ids. -/
theorem Sql.approve_capacityInv (db : Sql.Db) (reqId : String)
    (hseats : Sql.seatsPositive db)
    (hnodup : (db.rides.map Sql.RideRow.id).Nodup)
    (hinv : Sql.capacityInv db) :
    Sql.capacityInv (Sql.approve_ride_request db reqId).1 := by
  unfold Sql.approve_ride_request
  cases hfind : db.rideRequests.find? (fun rr =>
      rr.id == reqId && rr.status == RequestStatus.pending) with
  | none => exact hinv
  | some rr =>
    dsimp only
    cases hride : db.rides.find? (fun r => r.id == rr.rideId) with
    | none => exact hinv
    | some r0 =>
      dsimp only
      split_ifs with hcap
      · exact hinv
      · intro r hr
        simp only [Sql.create_notification] at hr ⊢
        have hcount : ∀ rid : String,
            Sql.currentPassengers
              ⟨db.rides,
               db.ridePassengers ++ [⟨rr.rideId, rr.passengerId⟩],
               db.rideRequests.map (fun q =>
                 if q.id == reqId then { q with status := RequestStatus.approved } else q),
               db.notifications ++
                 [⟨rr.passengerId, NotificationType.ride_approved, "Ride Request Approved!",
                   "Your request to join the ride has been approved."⟩]⟩ rid =
            Sql.currentPassengers db rid + (if (rr.rideId == rid) = true then 1 else 0) := by
          intro rid
          simp only [Sql.currentPassengers, List.filter_append, List.length_append]
          by_cases hx : (rr.rideId == rid) = true
          · simp [hx]
          · simp [hx]
        rw [hcount]
        by_cases hid : (rr.rideId == r.id) = true
        · have hrid : rr.rideId = r.id := by simpa using hid
          have h1 : r0 ∈ db.rides := List.mem_of_find?_eq_some hride
          have h2 : r0.id = rr.rideId := by simpa using List.find?_some hride
          have hreq1 : 1 ≤ rr.requestedSeats :=
            hseats rr (List.mem_of_find?_eq_some hfind)
          have hcap' : rr.requestedSeats ≤
              r0.availableSeats - (Sql.currentPassengers db rr.rideId : ℤ) :=
            not_lt.mp hcap
          have hr0 : r = r0 := List.inj_on_of_nodup_map hnodup hr h1 (by rw [h2, hrid])
          rw [if_pos hid]
          rw [hr0, h2]
          push_cast
          omega
        · rw [if_neg hid]
          simpa using hinv r hr

/-- Any sequence of `approve_ride_request` calls preserves the capacity
invariant. -/
theorem Sql.approveMany_capacityInv (db : Sql.Db) (ids : List String)
    (hseats : Sql.seatsPositive db)
    (hnodup : (db.rides.map Sql.RideRow.id).Nodup)
    (hinv : Sql.capacityInv db) :
    Sql.capacityInv (Sql.approveMany db ids) := by
  induction ids generalizing db with
  | nil => exact hinv
  | cons i is ih =>
    have hstep : Sql.approveMany db (i :: is) =
        Sql.approveMany (Sql.approve_ride_request db i).1 is := rfl
    rw [hstep]
    exact ih _ (Sql.approve_seatsPositive db i hseats)
      (by rw [Sql.approve_rides_eq]; exact hnodup)
      (Sql.approve_capacityInv db i hseats hnodup hinv)

/-- C1: under the schema constraints (`requested_seats > 0`, unique ride
ids) the passenger count of every ride stays within its seat capacity
after any sequence of `approve_ride_request` calls; and a call whose
recomputed remainder is below the request's `requested_seats` returns
`FALSE` (not an exception) leaving the database — in particular the
passenger rows and the request statuses — unchanged. -/
theorem approve_ride_request_capacity (db : Sql.Db) (ids : List String) (reqId : String)
    (rr : Sql.RideRequestRow) (r : Sql.RideRow)
    (hseats : Sql.seatsPositive db)
    (hnodup : (db.rides.map Sql.RideRow.id).Nodup)
    (hinv : Sql.capacityInv db)
    (hfind : db.rideRequests.find? (fun q =>
      q.id == reqId && q.status == RequestStatus.pending) = some rr)
    (hride : db.rides.find? (fun x => x.id == rr.rideId) = some r)
    (hcap : r.availableSeats - (Sql.currentPassengers db rr.rideId : ℤ) < rr.requestedSeats) :
    Sql.capacityInv (Sql.approveMany db ids) ∧
    Sql.approve_ride_request db reqId = (db, false) := by
  refine ⟨Sql.approveMany_capacityInv db ids hseats hnodup hinv, ?_⟩
  unfold Sql.approve_ride_request
  rw [hfind]
  dsimp only
  rw [hride]
  dsimp only
  rw [if_pos hcap]

/-- Witness for `approve_ride_request_capacity`: a capacity-1 ride that is
already full, with one more pending request. -/
theorem approve_ride_request_capacity_witness :
    Sql.capacityInv (Sql.approveMany fullDb ["q1"]) ∧
    Sql.approve_ride_request fullDb "q1" = (fullDb, false) :=
  approve_ride_request_capacity fullDb ["q1"] "q1"
    ⟨"q1", "p1", "r1", RequestStatus.pending, 1⟩ ⟨"r1", "d1", 1⟩
    (by decide) (by decide) (by decide) (by decide) (by decide) (by decide)

/-- C8: `approve_ride_request` on a request whose every matching row is
`rejected` returns `FALSE` and changes nothing; and after a successful
approval, approving the same request a second time returns `FALSE` and
changes nothing — `pending → approved` and `pending → rejected` are
terminal. -/
theorem approve_ride_request_terminal (db1 : Sql.Db) (id1 : String)
    (db2 db2' : Sql.Db) (id2 : String)
    (hrej : ∀ q ∈ db1.rideRequests, q.id = id1 → q.status = RequestStatus.rejected)
    (hsucc : Sql.approve_ride_request db2 id2 = (db2', true)) :
    Sql.approve_ride_request db1 id1 = (db1, false) ∧
    Sql.approve_ride_request db2' id2 = (db2', false) := by
  constructor
  · unfold Sql.approve_ride_request
    have hnone : db1.rideRequests.find? (fun q =>
        q.id == id1 && q.status == RequestStatus.pending) = none := by
      rw [List.find?_eq_none]
      intro q hq
      by_cases hid : q.id = id1
      · have hst := hrej q hq hid
        simp [hst]
      · simp [hid]
    rw [hnone]
  · unfold Sql.approve_ride_request at hsucc
    cases hfind : db2.rideRequests.find? (fun q =>
        q.id == id2 && q.status == RequestStatus.pending) with
    | none =>
      rw [hfind] at hsucc
      simp at hsucc
    | some rr =>
      rw [hfind] at hsucc
      dsimp only at hsucc
      cases hride : db2.rides.find? (fun x => x.id == rr.rideId) with
      | none =>
        rw [hride] at hsucc
        simp at hsucc
      | some r =>
        rw [hride] at hsucc
        dsimp only at hsucc
        split_ifs at hsucc with hcap
        · simp at hsucc
        · have hdb : db2' = Sql.create_notification
              ⟨db2.rides,
               db2.ridePassengers ++ [⟨rr.rideId, rr.passengerId⟩],
               db2.rideRequests.map (fun q =>
                 if q.id == id2 then { q with status := RequestStatus.approved } else q),
               db2.notifications⟩ rr.passengerId NotificationType.ride_approved
              "Ride Request Approved!"
              "Your request to join the ride has been approved." := by
            have := congrArg Prod.fst hsucc
            exact this.symm
          unfold Sql.approve_ride_request
          have hnone : db2'.rideRequests.find? (fun q =>
              q.id == id2 && q.status == RequestStatus.pending) = none := by
            rw [hdb]
            simp only [Sql.create_notification]
            rw [List.find?_eq_none]
            intro q' hq'
            rw [List.mem_map] at hq'
            obtain ⟨q0, _, rfl⟩ := hq'
            by_cases hid : (q0.id == id2) = true
            · simp [hid]
            · simp [hid]
          rw [hnone]

/-- Witness for `approve_ride_request_terminal`: approving a rejected
request fails and changes nothing; re-approving an already-approved
request fails and changes nothing. -/
theorem approve_ride_request_terminal_witness :
    Sql.approve_ride_request rejectedDb "q1" = (rejectedDb, false) ∧
    Sql.approve_ride_request approvedDb "q2" = (approvedDb, false) :=
  approve_ride_request_terminal rejectedDb "q1" approvableDb approvedDb "q2"
    (by decide) (by decide)
